import Mathlib

/-!
Shallow embedding of the Kaze-AI client (`src/App.jsx`): the Firestore
snapshot sanitizer, the welcome-record seeding, the session state machine
around recording and transcription, the plan-generation commit paths, the
bounded history context window, the notification slot and the per-card
language toggle.  JavaScript values flowing through the sanitizer are
modelled by an explicit JSON-value type `Jval` (with a distinguished
`undefined` for JavaScript's `undefined`), and property access on `null` or
`undefined` — which throws a `TypeError` in JavaScript — is modelled by
`Except String`.
-/

namespace Kaze

/-- JSON-compatible JavaScript value.  `undefined` models `undefined`
(distinct from `null`); numbers are modelled by `Int`, which is faithful
for every integral literal appearing in the claims. -/
inductive Jval where
  | null : Jval
  | undefined : Jval
  | bool : Bool → Jval
  | num : Int → Jval
  | str : String → Jval
  | arr : List Jval → Jval
  | obj : List (String × Jval) → Jval
  deriving Repr

/-- JavaScript strict equality `v === 's'` against a string literal. -/
def jsStrEq (v : Jval) (s : String) : Bool :=
  match v with
  | .str t => t = s
  | _ => false

/-- JavaScript truthiness: `null`, `undefined`, `false`, `0` and `""`
are falsy, everything else (objects and arrays included) is truthy. -/
def truthy : Jval → Bool
  | .null => false
  | .undefined => false
  | .bool b => b
  | .num n => n != 0
  | .str s => s ≠ ""
  | .arr _ => true
  | .obj _ => true

/-- Field lookup on an object's association list (first match). -/
def lookupField (fs : List (String × Jval)) (k : String) : Jval :=
  match fs.find? (fun p => p.1 = k) with
  | some p => p.2
  | none => .undefined

/-- JavaScript property access `v.k`.  Throws a `TypeError` on `null`
and `undefined`; yields `undefined` on primitives and on arrays for the
(non-numeric) keys the sanitizer reads. -/
def getField (v : Jval) (k : String) : Except String Jval :=
  match v with
  | .null => .error ("TypeError: cannot read properties of null (reading " ++ k ++ ")")
  | .undefined => .error ("TypeError: cannot read properties of undefined (reading " ++ k ++ ")")
  | .obj fs => .ok (lookupField fs k)
  | _ => .ok .undefined

/-- Optional chaining `v?.k`: `undefined` on `null`/`undefined`,
otherwise ordinary property access. -/
def optChain (v : Jval) (k : String) : Except String Jval :=
  match v with
  | .null => .ok .undefined
  | .undefined => .ok .undefined
  | _ => getField v k

/-- Fields contributed by a JavaScript object spread `{...v}`:
objects contribute their fields, strings and arrays contribute
index-keyed entries, primitives contribute nothing. -/
def spreadFields : Jval → List (String × Jval)
  | .obj fs => fs
  | .str s => (s.toList.enum.map (fun p => (toString p.1, Jval.str (String.singleton p.2))))
  | .arr xs => (xs.enum.map (fun p => (toString p.1, p.2)))
  | _ => []

/-- Object-literal field assignment: later writes to an existing key
update it in place (JavaScript keeps first-occurrence key order). -/
def setField (fs : List (String × Jval)) (k : String) (v : Jval) : List (String × Jval) :=
  if fs.any (fun p => p.1 = k) then
    fs.map (fun p => if p.1 = k then (k, v) else p)
  else
    fs ++ [(k, v)]

/-- Build an object literal from an ordered list of writes. -/
def objLit (writes : List (String × Jval)) : List (String × Jval) :=
  writes.foldl (fun acc p => setField acc p.1 p.2) []

/-- JSON string escaping (quote and backslash; sufficient for every
string the claims exercise). -/
def escapeChar (c : Char) : String :=
  if c = '"' then "\\\"" else if c = '\\' then "\\\\" else String.singleton c

/-- A JSON string literal.  -/
def quoteStr (s : String) : String :=
  "\"" ++ String.join (s.toList.map escapeChar) ++ "\""

/-- Comma-join. -/
def joinComma (l : List String) : String :=
  String.intercalate "," l

mutual

/-- `JSON.stringify`: `none` models JavaScript's `undefined` result on
`undefined` input; objects drop `undefined`-valued fields, arrays render
them as `null`. -/
def jsonStringify : Jval → Option String
  | .undefined => none
  | .null => some "null"
  | .bool b => some (if b then "true" else "false")
  | .num n => some (toString n)
  | .str s => some (quoteStr s)
  | .arr xs => some ("[" ++ joinComma (stringifyElems xs) ++ "]")
  | .obj fs => some ("\x7b" ++ joinComma (stringifyProps fs) ++ "\x7d")

/-- Array elements under `JSON.stringify` (undefined renders as null). -/
def stringifyElems : List Jval → List String
  | [] => []
  | x :: xs => ((jsonStringify x).getD "null") :: stringifyElems xs

/-- Object properties under `JSON.stringify` (undefined fields dropped). -/
def stringifyProps : List (String × Jval) → List String
  | [] => []
  | (k, v) :: fs =>
    match jsonStringify v with
    | some s => (quoteStr k ++ ":" ++ s) :: stringifyProps fs
    | none => stringifyProps fs

end

/-- `safeString` from the snapshot sanitizer (App.jsx lines 174–182),
transliterated: `null`/`undefined` become `""`; strings pass through;
for `typeof val === 'object'` (objects and arrays) the result is
`val.en || val.ja || JSON.stringify(val)` — note this yields whatever
truthy value `en`/`ja` holds, which need not be a string; other
primitives go through `String(val)`. -/
def safeString (val : Jval) : Jval :=
  match val with
  | .null => .str ""
  | .undefined => .str ""
  | .str s => .str s
  | .obj fs =>
    let en := lookupField fs "en"
    if truthy en then en
    else
      let ja := lookupField fs "ja"
      if truthy ja then ja
      else .str ((jsonStringify (.obj fs)).getD "undefined")
  | .arr xs =>
    -- arrays are `typeof 'object'`: `.en`/`.ja` are undefined (falsy)
    .str ((jsonStringify (.arr xs)).getD "undefined")
  | .num n => .str (toString n)
  | .bool b => .str (if b then "true" else "false")

/-- One timeline entry of the bot-message sanitizer (App.jsx 202–206 and
213–217): `t.text` / `t.coords` / `t.name` are plain property accesses,
so a `null` or `undefined` entry `t` throws. -/
def sanitizeTimelineItem (t : Jval) : Except String Jval := do
  let tx ← getField t "text"
  let co ← getField t "coords"
  let nm ← getField t "name"
  pure (.obj
    [("text", safeString tx),
     ("coords",
       match co with
       | .arr xs => if xs.length = 2 then .arr xs else .null
       | _ => .null),
     ("name", safeString nm)])

/-- One language variant of `safeContent` (App.jsx 197–219):
`rawContent.<lang>?.title` etc., and `timeline_data` mapped through
`sanitizeTimelineItem` when it is an array, else `[]`. -/
def sanitizeLangContent (rawContent : Jval) (langKey : String) : Except String Jval := do
  let lv ← getField rawContent langKey
  let title ← optChain lv "title"
  let report ← optChain lv "report"
  let tl ← optChain lv "timeline_data"
  let tlSan ←
    match tl with
    | .arr xs => do
        let items ← xs.mapM sanitizeTimelineItem
        pure (Jval.arr items)
    | _ => pure (Jval.arr [])
  pure (.obj
    [("title", safeString title),
     ("report", safeString report),
     ("timeline_data", tlSan)])

/-- The snapshot sanitizer applied to one document (App.jsx 170–231).
User records: `{id, ...raw, main: safeString(raw.main),
sub: safeString(raw.sub)}`.  Bot records:
`{id, ...raw, data: {...raw.data, city: safeString(raw.data?.city),
content: safeContent}}` with `rawContent = raw.data?.content || {}`. -/
def sanitizeDoc (docId : String) (raw : Jval) : Except String Jval := do
  let ty ← getField raw "type"
  if jsStrEq ty "user" then
    let m ← getField raw "main"
    let s ← getField raw "sub"
    pure (.obj (objLit
      ([("id", .str docId)] ++ spreadFields raw ++
       [("main", safeString m), ("sub", safeString s)])))
  else
    let dataV ← getField raw "data"
    let contentV ← optChain dataV "content"
    let rawContent := if truthy contentV then contentV else .obj []
    let enC ← sanitizeLangContent rawContent "en"
    let jaC ← sanitizeLangContent rawContent "ja"
    let cityV ← optChain dataV "city"
    let newData := Jval.obj (objLit
      (spreadFields dataV ++
       [("city", safeString cityV),
        ("content", .obj [("en", enC), ("ja", jaC)])]))
    pure (.obj (objLit
      ([("id", .str docId)] ++ spreadFields raw ++ [("data", newData)])))

/-- Fail-fast map over a list, as an exception thrown inside
`Array.prototype.map` propagates. -/
def mapExcept (f : α → Except String β) : List α → Except String (List β)
  | [] => .ok []
  | x :: xs =>
    match f x with
    | .error e => .error e
    | .ok y =>
      match mapExcept f xs with
      | .error e => .error e
      | .ok ys => .ok (y :: ys)

/-- The synthetic bilingual welcome record seeded into an empty feed
(App.jsx 234–264).  The server-assigned `serverTimestamp()` sentinel is
modelled by an opaque string. -/
def welcomeDoc : Jval :=
  .obj
    [("type", .str "bot"),
     ("isWelcome", .bool true),
     ("displayLang", .str "English"),
     ("createdAt", .str "serverTimestamp"),
     ("data", .obj
       [("category", .str "General"),
        ("weather", .obj [("temp", .str "--"), ("icon_code", .str "")]),
        ("city", .str "System"),
        ("content", .obj
          [("en", .obj
            [("title", .str "Welcome to KAZE AI"),
             ("report", .str "I am ready to help."),
             ("timeline_data", .arr
               [.obj [("text", .str "Select a category below"), ("coords", .null)],
                .obj [("text", .str "Tap the Mic to speak"), ("coords", .null)],
                .obj [("text", .str "Or type your question directly"), ("coords", .null)]])]),
           ("ja", .obj
            [("title", .str "KAZE AIへようこそ"),
             ("report", .str "準備完了しました。"),
             ("timeline_data", .arr
               [.obj [("text", .str "下のカテゴリーを選択してください"), ("coords", .null)],
                .obj [("text", .str "マイクをタップして話す"), ("coords", .null)],
                .obj [("text", .str "または直接入力してください"), ("coords", .null)]])])])])]

/-- One delivery of the Firestore `onSnapshot` callback (App.jsx
169–268) against the current store contents: the snapshot's docs are
sanitized, and only when the mapped history is empty is the welcome
record written (`addDoc`, modelled with fresh id `"w"`); otherwise the
in-memory chat history is replaced.  Returns the store after the
delivery and whether a welcome record was written. -/
def onSnapshotCallback (store : List (String × Jval)) :
    Except String (List (String × Jval) × Bool) :=
  match mapExcept (fun p => sanitizeDoc p.1 p.2) store with
  | .error e => .error e
  | .ok history =>
    if history.length = 0 then
      .ok (store ++ [("w", welcomeDoc)], true)
    else
      .ok (store, false)

/-- `n` successive snapshot deliveries (the client is the only writer);
a delivery whose sanitization throws performs no write.  Returns the
final store and the number of welcome records written. -/
def observeN : Nat → List (String × Jval) → List (String × Jval) × Nat
  | 0, s => (s, 0)
  | n + 1, s =>
    match onSnapshotCallback s with
    | .ok (s', wrote) =>
      let r := observeN n s'
      (r.1, (if wrote then 1 else 0) + r.2)
    | .error _ =>
      let r := observeN n s
      (r.1, r.2)

/-- Outcome of the `POST /transcribe` call: `ok` carries the response's
`transcript` and `translation` fields (possibly `undefined`), `err` is
any transport/HTTP failure (the `catch` branch). -/
inductive TranscribeOutcome where
  | ok (transcript translation : Jval)
  | err

/-- Observable effect of `handleStopAndTranscribe` (App.jsx 377–397):
the app states set (in order), the resulting `transcriptData` as a
`(ja, en)` pair, the notification shown and whether the transcription
service was invoked. -/
structure TranscribeResult where
  statesVisited : List String
  transcriptData : Jval × Jval
  notif : Option String
  transcribeCalled : Bool
  deriving Repr

/-- `handleStopAndTranscribe`, transliterated: the blob built from the
captured chunks has size zero iff the chunk sizes sum to zero, in which
case the state is set to `idle` and the function returns before any
request or notification; otherwise the state becomes `transcribing` and
the response (or failure) is handled. -/
def handleStopAndTranscribe (tdPrev : Jval × Jval) (chunkSizes : List Nat)
    (outcome : TranscribeOutcome) : TranscribeResult :=
  if chunkSizes.sum = 0 then
    { statesVisited := ["idle"], transcriptData := tdPrev,
      notif := none, transcribeCalled := false }
  else
    match outcome with
    | .ok transcript translation =>
      { statesVisited := ["transcribing", "verification"],
        transcriptData := (transcript, translation),
        notif := none, transcribeCalled := true }
    | .err =>
      { statesVisited := ["transcribing", "idle"], transcriptData := tdPrev,
        notif := some "Transcription failed.", transcribeCalled := true }

/-- The user document committed at the start of `executePlanGeneration`
(App.jsx 450–456): `sub` is always the `"Translating..."` placeholder. -/
def userMessageDoc (textInput : String) (isVoice : Bool) : Jval :=
  .obj
    [("type", .str "user"),
     ("main", .str textInput),
     ("sub", .str "Translating..."),
     ("isVoice", .bool isVoice),
     ("createdAt", .str "serverTimestamp")]

/-- The synthetic bilingual error record appended by
`executePlanGeneration`'s catch branch (App.jsx 507–520); every field is
hardcoded, independent of the session's selected language. -/
def planFailureDoc : Jval :=
  .obj
    [("type", .str "bot"),
     ("displayLang", .str "English"),
     ("createdAt", .str "serverTimestamp"),
     ("data", .obj
       [("category", .str "System"),
        ("weather", .obj [("temp", .str "!"), ("icon_code", .str "")]),
        ("city", .str "Error"),
        ("content", .obj
          [("en", .obj
            [("title", .str "Error"),
             ("report", .str "Could not generate plan."),
             ("timeline_data", .arr [])]),
           ("ja", .obj
            [("title", .str "エラー"),
             ("report", .str "プランを作成できませんでした。"),
             ("timeline_data", .arr [])])])])]

/-- Outcome of the `POST /generate_plan` call. -/
inductive PlanOutcome where
  | ok (city weather category content user_translation : Jval)
  | err

/-- Observable effects of `executePlanGeneration` (App.jsx 443–522):
documents appended to history in order, the `sub` patch applied to the
pending user document (text-submitted messages only), the notification
shown, and the final session state. -/
structure PlanEffects where
  appendedDocs : List Jval
  subPatch : Option Jval
  notif : Option String
  finalState : String

/-- `executePlanGeneration`, transliterated: the user document is
committed first with the placeholder `sub`; on success the `sub` is
patched iff `!isVoice`, and the bot document carries the session's
`targetLang` as `displayLang`; on failure a notification is shown and
the hardcoded `planFailureDoc` is appended. -/
def executePlanGeneration (targetLang : String) (textInput : String)
    (isVoice : Bool) (outcome : PlanOutcome) : PlanEffects :=
  let userDoc := userMessageDoc textInput isVoice
  match outcome with
  | .ok city weather category content user_translation =>
    { appendedDocs :=
        [userDoc,
         .obj
           [("type", .str "bot"),
            ("displayLang", .str targetLang),
            ("createdAt", .str "serverTimestamp"),
            ("data", .obj
              [("city", city), ("weather", weather),
               ("category", category), ("content", content)])]],
      subPatch := if isVoice then none else some user_translation,
      notif := none,
      finalState := "idle" }
  | .err =>
    { appendedDocs := [userDoc, planFailureDoc],
      subPatch := none,
      notif := some "Planning failed. Check console.",
      finalState := "idle" }

/-- Arguments with which `executePlanGeneration` is invoked. -/
structure PlanCall where
  text : String
  isVoice : Bool
  deriving DecidableEq

/-- `handleConfirmVoice` (App.jsx 524–528), transliterated: `mainText`
and `subText` are computed from the display language but never used —
the call made is `executePlanGeneration(transcriptData.ja, true)`. -/
def handleConfirmVoice (targetLang : String) (tdJa tdEn : String) : PlanCall :=
  let mainText := if targetLang = "English" then tdEn else tdJa
  let subText := if targetLang = "English" then tdJa else tdEn
  { text := tdJa, isVoice := true }

/-- A message of the in-memory chat history as consumed by the context
window construction (only the fields it reads). -/
structure CMsg where
  type : String
  isWelcome : Bool
  main : String
  data : Jval

/-- One `{role, content}` entry of the bounded context window. -/
structure CtxEntry where
  role : String
  content : String
  deriving DecidableEq

/-- The per-message reduction of `historyContext` (App.jsx 467–470). -/
def reduceMsg (m : CMsg) : CtxEntry :=
  { role := if m.type = "user" then "user" else "assistant",
    content :=
      if m.type = "user" then m.main
      else (jsonStringify m.data).getD "undefined" }

/-- `historyContext` (App.jsx 464–470):
`chatHistory.filter(msg => !msg.isWelcome).slice(-6).map(...)`;
`slice(-6)` keeps the last six elements, i.e. drops `length - 6`. -/
def historyContext (chatHistory : List CMsg) : List CtxEntry :=
  let filtered := chatHistory.filter (fun m => !m.isWelcome)
  (filtered.drop (filtered.length - 6)).map reduceMsg

/-- The duration, in seconds, after which a shown notification is
cleared (App.jsx 144: `setTimeout(..., 3000)`). -/
def notifDuration : Nat := 3

/-- One time step of the notification slot: pending clears scheduled by
earlier `showNotification` calls fire unconditionally (the timeout is
never cancelled), then any show at this instant overwrites the slot
(last write wins). -/
def stepTime (shows : List (Nat × String)) (slot : Option String) (τ : Nat) :
    Option String :=
  let afterClears :=
    if shows.any (fun p => p.1 + notifDuration = τ) then none else slot
  (shows.filter (fun p => p.1 = τ)).foldl (fun _ p => some p.2) afterClears

/-- The notification slot's content at time `q`, given the times and
messages of the `showNotification` calls: each show sets the slot and
schedules an unconditional clear `notifDuration` later. -/
def slotAt (shows : List (Nat × String)) (q : Nat) : Option String :=
  (List.range (q + 1)).foldl (stepTime shows) none

/-- Modelled from the spec claim's words (for comparison with `slotAt`):
"every shown notification auto-clears exactly 3 seconds after it was
shown unless replaced sooner", so the slot at time `q` holds the latest
show at or before `q` iff it is within its own 3-second window.
`shows` is assumed chronological. -/
def specSlotAt (shows : List (Nat × String)) (q : Nat) : Option String :=
  match (shows.filter (fun p => p.1 ≤ q)).foldl (fun _ p => some p) none with
  | some p => if q < p.1 + notifDuration then some p.2 else none
  | none => none

/-- The new language computed by `toggleCardLanguage` (App.jsx 414):
`msg.displayLang === 'English' ? 'Japanese' : 'English'`. -/
def toggleNewLang (displayLang : Jval) : String :=
  if jsStrEq displayLang "English" then "Japanese" else "English"

/-- The Firestore update issued by `toggleCardLanguage` (App.jsx 418):
`updateDoc(docRef, { displayLang: newLang })` — a single-field write. -/
def toggleUpdatePayload (displayLang : Jval) : List (String × Jval) :=
  [("displayLang", .str (toggleNewLang displayLang))]

/-- Read a field of an object value (`undefined` otherwise). -/
def docField (v : Jval) (k : String) : Jval :=
  match v with
  | .obj fs => lookupField fs k
  | _ => .undefined

/-! ## Claim-specific inputs -/

/-- A JSON-compatible bot record whose `content.en.timeline_data` array
contains a `null` entry. -/
def nullTimelineRecord : Jval :=
  .obj
    [("type", .str "bot"),
     ("data", .obj
       [("content", .obj
         [("en", .obj [("timeline_data", .arr [Jval.null])])])])]

/-- A JSON-compatible user record whose `main` is an `{en: 1}` object
(a truthy non-string `en` sub-field). -/
def numericEnRecord : Jval :=
  .obj [("type", .str "user"), ("main", .obj [("en", .num 1)])]

/-- The `main` field of a successfully sanitized record. -/
def mainFieldOf (r : Except String Jval) : Jval :=
  match r with
  | .ok v => docField v "main"
  | .error _ => .undefined

/-! ## Theorems -/

/-- C1: the claim says the sanitizer terminates without throwing for
every JSON-compatible record, including a `timeline_data` array
containing `null` entries.  The code contradicts this: mapping over the
timeline reads `t.text` on each entry, which throws a `TypeError` when
the entry is `null`.  This theorem evaluates the embedded sanitizer at
the failing input and shows it aborts with that `TypeError`. -/
theorem c1_sanitizer_throws_on_null_timeline_entry :
    sanitizeDoc "d1" nullTimelineRecord =
      .error "TypeError: cannot read properties of null (reading text)" := rfl

/-- C8: the claim says `sanitize` is idempotent.  The code contradicts
this: `safeString` on an object returns `val.en || val.ja || ...`,
which yields the raw (non-string) `en` value when it is truthy; the
second application then stringifies it, so the two applications differ
(here: `main` is `1` after one pass and `"1"` after two). -/
theorem c8_sanitize_not_idempotent :
    (sanitizeDoc "d2" numericEnRecord).bind (sanitizeDoc "d2") ≠
      sanitizeDoc "d2" numericEnRecord := by
  intro h
  have h1 : mainFieldOf ((sanitizeDoc "d2" numericEnRecord).bind (sanitizeDoc "d2")) =
      Jval.str "1" := rfl
  have h2 : mainFieldOf (sanitizeDoc "d2" numericEnRecord) = Jval.num 1 := rfl
  rw [congrArg mainFieldOf h, h2] at h1
  exact Jval.noConfusion h1

/-- C3: the claim says confirming a verified voice transcript commits a
UserMessage with `main` = transcript in the configured display language
and `sub` = the other-language transcript, no placeholder.  The code
computes exactly those values (`mainText`/`subText`) but never uses
them: it calls `executePlanGeneration(transcriptData.ja, true)`, so the
committed document has `main` = the Japanese source transcript (even
with display language English) and `sub` = the `"Translating..."`
placeholder, which is never patched for voice input.  The plan request
does use the source-language transcript, as claimed. -/
theorem c3_confirm_voice_commits_placeholder :
    (handleConfirmVoice "English" "こんにちは" "Hello").text = "こんにちは" ∧
    (handleConfirmVoice "English" "こんにちは" "Hello").isVoice = true ∧
    docField (userMessageDoc "こんにちは" true) "main" = .str "こんにちは" ∧
    docField (userMessageDoc "こんにちは" true) "main" ≠ .str "Hello" ∧
    docField (userMessageDoc "こんにちは" true) "sub" = .str "Translating..." ∧
    (executePlanGeneration "English" "こんにちは" true
        (PlanOutcome.ok .null .null .null .null (.str "Hello"))).subPatch = none := by
  refine ⟨rfl, rfl, rfl, ?_, rfl, rfl⟩
  intro h
  have : "こんにちは" = "Hello" := by
    have h1 : docField (userMessageDoc "こんにちは" true) "main" = .str "こんにちは" := rfl
    rw [h] at h1
    injection h1.symm
  exact absurd this (by decide)

/-- C9: on every plan-generation failure the appended synthetic error
record is the hardcoded `planFailureDoc`, independent of the session's
selected display language: `displayLang` is `'English'`, `category`
`'System'`, `city` `'Error'`, and the fixed bilingual error content has
empty `timeline_data` in both languages. -/
theorem c9_plan_failure_record_fixed :
    ∀ (targetLang textInput : String) (isVoice : Bool),
      (executePlanGeneration targetLang textInput isVoice .err).appendedDocs.getLast?
          = some planFailureDoc ∧
      (executePlanGeneration targetLang textInput isVoice .err).notif
          = some "Planning failed. Check console." ∧
      docField planFailureDoc "displayLang" = .str "English" ∧
      docField (docField planFailureDoc "data") "category" = .str "System" ∧
      docField (docField planFailureDoc "data") "city" = .str "Error" ∧
      docField (docField (docField (docField planFailureDoc "data") "content") "en")
          "title" = .str "Error" ∧
      docField (docField (docField (docField planFailureDoc "data") "content") "en")
          "report" = .str "Could not generate plan." ∧
      docField (docField (docField (docField planFailureDoc "data") "content") "en")
          "timeline_data" = .arr [] ∧
      docField (docField (docField (docField planFailureDoc "data") "content") "ja")
          "title" = .str "エラー" ∧
      docField (docField (docField (docField planFailureDoc "data") "content") "ja")
          "report" = .str "プランを作成できませんでした。" ∧
      docField (docField (docField (docField planFailureDoc "data") "content") "ja")
          "timeline_data" = .arr [] :=
  fun _ _ _ => ⟨rfl, rfl, rfl, rfl, rfl, rfl, rfl, rfl, rfl, rfl, rfl⟩

/-- C10: toggling a card's language maps `displayLang === 'English'` to
`'Japanese'` and every other value (missing, null, corrupted) to
`'English'`; the result is always one of the two allowed values, and
the persisted update writes exactly the single field `displayLang`. -/
theorem c10_toggle_language_total :
    ∀ v : Jval,
      (toggleNewLang v = "Japanese" ∨ toggleNewLang v = "English") ∧
      toggleNewLang (Jval.str "English") = "Japanese" ∧
      (v ≠ Jval.str "English" → toggleNewLang v = "English") ∧
      (toggleUpdatePayload v).map Prod.fst = ["displayLang"] := by
  intro v
  refine ⟨?_, rfl, ?_, rfl⟩
  · by_cases h : jsStrEq v "English" = true
    · exact Or.inl (by simp [toggleNewLang, h])
    · exact Or.inr (by simp [toggleNewLang, h])
  · intro hne
    cases v with
    | str s =>
      have hs : s ≠ "English" := fun h => hne (by rw [h])
      simp [toggleNewLang, jsStrEq, hs]
    | null => rfl
    | undefined => rfl
    | bool b => rfl
    | num n => rfl
    | arr xs => rfl
    | obj fs => rfl

/-- C10 witness: toggling a missing (`null`) display language yields
`'English'`, and the persisted update carries only `displayLang`. -/
theorem c10_toggle_language_total_witness :
    toggleNewLang Jval.null = "English" ∧
    (toggleUpdatePayload Jval.null).map Prod.fst = ["displayLang"] :=
  ⟨(c10_toggle_language_total Jval.null).2.2.1 (fun h => Jval.noConfusion h),
   (c10_toggle_language_total Jval.null).2.2.2⟩

/-- C5: stopping a recording with zero captured bytes returns the
session directly to `Idle`: the transcription service is never invoked,
no notification is shown, the transcript pair is untouched and the
`transcribing` state is never entered. -/
theorem c5_zero_bytes_silent_idle :
    ∀ (tdPrev : Jval × Jval) (chunkSizes : List Nat) (outcome : TranscribeOutcome),
      chunkSizes.sum = 0 →
      handleStopAndTranscribe tdPrev chunkSizes outcome =
        { statesVisited := ["idle"], transcriptData := tdPrev,
          notif := none, transcribeCalled := false } ∧
      "transcribing" ∉ (handleStopAndTranscribe tdPrev chunkSizes outcome).statesVisited := by
  intro tdPrev chunkSizes outcome h
  unfold handleStopAndTranscribe
  rw [if_pos h]
  exact ⟨rfl, by simp⟩

/-- C5 witness: a stop with no captured chunks at all. -/
theorem c5_zero_bytes_silent_idle_witness :
    handleStopAndTranscribe (Jval.str "", Jval.str "") [] TranscribeOutcome.err =
      { statesVisited := ["idle"], transcriptData := (Jval.str "", Jval.str ""),
        notif := none, transcribeCalled := false } ∧
    "transcribing" ∉ (handleStopAndTranscribe (Jval.str "", Jval.str "")
      [] TranscribeOutcome.err).statesVisited :=
  c5_zero_bytes_silent_idle (Jval.str "", Jval.str "") [] TranscribeOutcome.err rfl

/-- C4 counterexample: the claim says a response in which exactly one of
transcript/translation is empty is treated as a failure and never
stored.  At the concrete successful response
`{transcript: "こんにちは", translation: ""}` the code transitions to
`verification` and stores the partial pair verbatim, with no failure
notification. -/
theorem c4_partial_pair_stored :
    (handleStopAndTranscribe (Jval.str "", Jval.str "") [5]
        (TranscribeOutcome.ok (.str "こんにちは") (.str ""))).statesVisited =
      ["transcribing", "verification"] ∧
    (handleStopAndTranscribe (Jval.str "", Jval.str "") [5]
        (TranscribeOutcome.ok (.str "こんにちは") (.str ""))).transcriptData =
      (Jval.str "こんにちは", Jval.str "") ∧
    (handleStopAndTranscribe (Jval.str "", Jval.str "") [5]
        (TranscribeOutcome.ok (.str "こんにちは") (.str ""))).notif = none :=
  ⟨rfl, rfl, rfl⟩

/-- C4 (amended): whenever the transcription HTTP call itself succeeds
and at least one byte was captured, the session transitions to
`Verification` and stores the response's `transcript`/`translation`
verbatim, with no emptiness validation — partial pairs included; only
transport/HTTP failures are treated as failure. -/
theorem c4_response_stored_verbatim :
    ∀ (tdPrev : Jval × Jval) (chunkSizes : List Nat) (transcript translation : Jval),
      chunkSizes.sum ≠ 0 →
      handleStopAndTranscribe tdPrev chunkSizes
          (TranscribeOutcome.ok transcript translation) =
        { statesVisited := ["transcribing", "verification"],
          transcriptData := (transcript, translation),
          notif := none, transcribeCalled := true } := by
  intro tdPrev chunkSizes transcript translation h
  unfold handleStopAndTranscribe
  rw [if_neg h]

/-- C4 witness: a one-chunk recording with a concrete response. -/
theorem c4_response_stored_verbatim_witness :
    handleStopAndTranscribe (Jval.str "", Jval.str "") [5]
        (TranscribeOutcome.ok (Jval.str "a") (Jval.str "b")) =
      { statesVisited := ["transcribing", "verification"],
        transcriptData := (Jval.str "a", Jval.str "b"),
        notif := none, transcribeCalled := true } :=
  c4_response_stored_verbatim (Jval.str "", Jval.str "") [5]
    (Jval.str "a") (Jval.str "b") (by decide)

/-- C6: for every chat history, the context window sent with a plan
request has at most 6 entries; it equals the last 6 entries, in log
order, of the non-welcome messages each reduced to `{role, content}`
(raw `main` for user turns, serialized payload for assistant turns, per
`reduceMsg`); and every entry's role is `user` or `assistant`. -/
theorem c6_history_context_bounded :
    ∀ chatHistory : List CMsg,
      (historyContext chatHistory).length ≤ 6 ∧
      historyContext chatHistory =
        ((chatHistory.filter (fun m => !m.isWelcome)).map reduceMsg).drop
          (((chatHistory.filter (fun m => !m.isWelcome)).map reduceMsg).length - 6) ∧
      (historyContext chatHistory).all
        (fun e => e.role == "user" || e.role == "assistant") = true := by
  intro chatHistory
  refine ⟨?_, ?_, ?_⟩
  · simp only [historyContext, List.length_map, List.length_drop]
    omega
  · simp only [historyContext, List.map_drop, List.length_map]
  · rw [List.all_eq_true]
    intro e he
    simp only [historyContext, List.mem_map] at he
    obtain ⟨m, _, rfl⟩ := he
    by_cases h : m.type = "user" <;> simp [reduceMsg, h]

/-- Length of a successful fail-fast map. -/
theorem mapExcept_ok_length {α β : Type} (f : α → Except String β) :
    ∀ (l : List α) (res : List β), mapExcept f l = .ok res → res.length = l.length := by
  intro l
  induction l with
  | nil =>
    intro res h
    simp only [mapExcept] at h
    cases h
    rfl
  | cons x xs ih =>
    intro res h
    simp only [mapExcept] at h
    cases hfx : f x with
    | error e => rw [hfx] at h; cases h
    | ok y =>
      rw [hfx] at h
      cases hxs : mapExcept f xs with
      | error e => rw [hxs] at h; cases h
      | ok ys =>
        rw [hxs] at h
        cases h
        simp [ih ys hxs]

/-- A store holding the welcome record is a fixed point of snapshot
delivery: the record sanitizes successfully, the snapshot is non-empty,
and no further welcome record is written. -/
theorem observeN_welcome_fixed :
    ∀ n, observeN n [("w", welcomeDoc)] = ([("w", welcomeDoc)], 0) := by
  intro n
  induction n with
  | zero => rfl
  | succ n ih =>
    have hcb : onSnapshotCallback [("w", welcomeDoc)] =
        .ok ([("w", welcomeDoc)], false) := rfl
    simp [observeN, hcb, ih]

/-- C2: the welcome-record write fires iff the observed snapshot is
empty, and over any number of snapshot deliveries of a feed that starts
empty (this client being the only writer) exactly one welcome record is
ever written: the first delivery seeds it, every later delivery
observes a non-empty feed and writes nothing. -/
theorem c2_welcome_seeded_exactly_once :
    (∀ (s : List (String × Jval)) (r : List (String × Jval) × Bool),
        onSnapshotCallback s = .ok r → (r.2 = true ↔ s = [])) ∧
    (∀ n : Nat, 1 ≤ n → observeN n [] = ([("w", welcomeDoc)], 1)) := by
  constructor
  · intro s r h
    unfold onSnapshotCallback at h
    cases hm : mapExcept (fun p => sanitizeDoc p.1 p.2) s with
    | error e => rw [hm] at h; cases h
    | ok hist =>
      rw [hm] at h
      have hlen := mapExcept_ok_length _ s hist hm
      cases s with
      | nil =>
        have h0 : hist.length = 0 := by simpa using hlen
        dsimp only at h
        rw [if_pos h0] at h
        cases h
        simp
      | cons p rest =>
        have h0 : hist.length ≠ 0 := by simp [hlen]
        dsimp only at h
        rw [if_neg h0] at h
        cases h
        simp
  · intro n hn
    match n, hn with
    | m + 1, _ =>
      have hcb : onSnapshotCallback [] = .ok ([("w", welcomeDoc)], true) := rfl
      simp [observeN, hcb, observeN_welcome_fixed m]

/-- C2 witness: the empty snapshot fires the write, and one delivery of
an initially empty feed yields exactly one welcome record. -/
theorem c2_welcome_seeded_exactly_once_witness :
    ((([] : List (String × Jval)) ++ [("w", welcomeDoc)], true).2 = true ↔
      ([] : List (String × Jval)) = []) ∧
    observeN 1 [] = ([("w", welcomeDoc)], 1) :=
  ⟨c2_welcome_seeded_exactly_once.1 [] ([] ++ [("w", welcomeDoc)], true) rfl,
   c2_welcome_seeded_exactly_once.2 1 (by decide)⟩

/-- Unfolding one time step of the notification slot. -/
theorem slotAt_succ (shows : List (Nat × String)) (q : Nat) :
    slotAt shows (q + 1) = stepTime shows (slotAt shows q) (q + 1) := by
  simp [slotAt, List.range_succ]

/-- `stepTime` for a single scheduled show. -/
theorem stepTime_single (t : Nat) (m : String) (slot : Option String) (τ : Nat) :
    stepTime [(t, m)] slot τ =
      if t = τ then some m
      else if t + 3 = τ then none else slot := by
  by_cases h1 : t = τ <;> by_cases h2 : t + 3 = τ <;>
    simp [stepTime, notifDuration, h1, h2]

/-- `stepTime` for two distinct scheduled shows. -/
theorem stepTime_two (t1 t2 : Nat) (m1 m2 : String) (slot : Option String)
    (τ : Nat) (hne : t1 ≠ t2) :
    stepTime [(t1, m1), (t2, m2)] slot τ =
      if t2 = τ then some m2
      else if t1 = τ then some m1
      else if t1 + 3 = τ ∨ t2 + 3 = τ then none
      else slot := by
  by_cases h1 : t1 = τ <;> by_cases h2 : t2 = τ <;>
    by_cases h3 : t1 + 3 = τ <;> by_cases h4 : t2 + 3 = τ <;>
      simp_all [stepTime, notifDuration]

/-- The slot over time for one isolated show: visible exactly during
its own 3-second window. -/
theorem slotAt_single (t : Nat) (m : String) :
    ∀ q, slotAt [(t, m)] q = if t ≤ q ∧ q < t + 3 then some m else none := by
  intro q
  induction q with
  | zero =>
    have h0 : slotAt [(t, m)] 0 = stepTime [(t, m)] none 0 := rfl
    rw [h0, stepTime_single]
    split_ifs <;> first | rfl | omega
  | succ q ih =>
    rw [slotAt_succ, ih, stepTime_single]
    split_ifs <;> first | rfl | omega

/-- The slot over time for two shows where the second replaces the
first inside its window: the replacement is cleared by the first
show's pending timer at `t1 + 3`, before its own 3 seconds elapse. -/
theorem slotAt_two (t1 t2 : Nat) (m1 m2 : String)
    (h1 : t1 < t2) (h2 : t2 < t1 + 3) :
    ∀ q, slotAt [(t1, m1), (t2, m2)] q =
      if t1 ≤ q ∧ q < t2 then some m1
      else if t2 ≤ q ∧ q < t1 + 3 then some m2
      else none := by
  intro q
  induction q with
  | zero =>
    have h0 : slotAt [(t1, m1), (t2, m2)] 0 =
        stepTime [(t1, m1), (t2, m2)] none 0 := rfl
    rw [h0, stepTime_two t1 t2 m1 m2 none 0 (by omega)]
    split_ifs <;> first | rfl | omega
  | succ q ih =>
    rw [slotAt_succ, ih, stepTime_two t1 t2 m1 m2 _ (q + 1) (by omega)]
    split_ifs <;> first | rfl | omega

/-- C7 counterexample: the claim says a replacement shown before the
first notification's 3 seconds elapse remains visible for its own full
3-second duration.  With shows at times 0 and 1, the code's slot (whose
`setTimeout` is never cancelled) is already empty at time 3 — cleared
by the first show's stale timer — while the claim's model still
displays the replacement until time 4. -/
theorem c7_stale_timer_clears_replacement :
    slotAt [(0, "A"), (1, "B")] 3 = none ∧
    specSlotAt [(0, "A"), (1, "B")] 3 = some "B" := ⟨rfl, rfl⟩

/-- C7 (amended): the slot is single-slot last-write-wins and each
show schedules an unconditional clear 3 seconds later.  An isolated
show is visible exactly during its own 3-second window; but when a
second show replaces the first within the first's window, the
replacement is visible only until the first show's timer fires at
`t1 + 3` — it is cleared early, not after its own 3 seconds. -/
theorem c7_notification_slot :
    ∀ (t1 t2 q : Nat) (m1 m2 : String),
      slotAt [(t1, m1)] q =
        (if t1 ≤ q ∧ q < t1 + notifDuration then some m1 else none) ∧
      (t1 < t2 → t2 < t1 + notifDuration →
        (slotAt [(t1, m1), (t2, m2)] (t1 + notifDuration) = none ∧
         (t2 ≤ q → q < t1 + notifDuration →
           slotAt [(t1, m1), (t2, m2)] q = some m2))) := by
  intro t1 t2 q m1 m2
  constructor
  · simpa [notifDuration] using slotAt_single t1 m1 q
  · intro hlt hwin
    have hwin3 : t2 < t1 + 3 := by simpa [notifDuration] using hwin
    constructor
    · rw [show t1 + notifDuration = t1 + 3 from rfl,
        slotAt_two t1 t2 m1 m2 hlt hwin3 (t1 + 3)]
      split_ifs <;> first | rfl | omega
    · intro hq1 hq2
      have hq3 : q < t1 + 3 := by simpa [notifDuration] using hq2
      rw [slotAt_two t1 t2 m1 m2 hlt hwin3 q]
      split_ifs <;> first | rfl | omega

/-- C7 witness: shows at times 0 and 1; the isolated window, the early
clear at time 3 and the replacement's visibility at time 2. -/
theorem c7_notification_slot_witness :
    slotAt [(0, "A")] 2 = some "A" ∧
    slotAt [(0, "A"), (1, "B")] (0 + notifDuration) = none ∧
    slotAt [(0, "A"), (1, "B")] 2 = some "B" := by
  refine ⟨?_, ?_, ?_⟩
  · simpa [notifDuration] using (c7_notification_slot 0 1 2 "A" "B").1
  · exact ((c7_notification_slot 0 1 2 "A" "B").2 (by decide) (by decide)).1
  · exact ((c7_notification_slot 0 1 2 "A" "B").2 (by decide) (by decide)).2
      (by decide) (by decide)

end Kaze
